import Mathlib

/-
Verification development for the regression repository.
The definitions below are real-valued shallow embeddings of the Rust code in
src/main.rs and src/regressors.rs; f64 arithmetic is modelled by exact real
arithmetic, and a Rust panic (the unreachable arm of a match, or an
out-of-bounds array index) is modelled by Option.none.
-/

namespace Regression

noncomputable section

open Classical

/-- Real-valued semantics of f64 hypot, used by the N = 2 arm of magnitude in
src/main.rs. -/
def hypot (a b : ℝ) : ℝ := Real.sqrt (a ^ 2 + b ^ 2)

/-- Embedding of the Magnitude impl for fixed-size arrays in src/main.rs
lines 44 to 53: match on the array length N with arms 0, 1, 2 and a general
sum-of-squares arm. -/
def magnitude : (n : ℕ) → (Fin n → ℝ) → ℝ
  | 0, _ => 0
  | 1, v => v 0
  | 2, v => hypot (v 0) (v 1)
  | _ + 3, v => Real.sqrt (∑ i, v i * v i)

/-- The Linear model of src/regressors.rs, parameters slope and y_intercept. -/
structure Linear where
  slope : ℝ
  y_intercept : ℝ

/-- Embedding of Linear::predict: the match on nudge, with arms for indices
0 and 1 and an unreachable wildcard arm modelled by none. -/
def Linear.predict (m : Linear) (nudge : Option (ℕ × ℝ)) (x : ℝ) : Option ℝ :=
  match nudge with
  | none => some (m.slope * x + m.y_intercept)
  | some (0, epsilon) => some ((m.slope + epsilon) * x + m.y_intercept)
  | some (1, epsilon) => some (m.slope * x + m.y_intercept + epsilon)
  | some (_ + 2, _) => none

/-- Embedding of Linear::descend: element-wise addition of the adjustment
array onto the two parameters. -/
def Linear.descend (m : Linear) (adjustments : Fin 2 → ℝ) : Linear :=
  { slope := m.slope + adjustments 0, y_intercept := m.y_intercept + adjustments 1 }

/-- The Exponential model of src/regressors.rs, parameters base and growth. -/
structure Exponential where
  base : ℝ
  growth : ℝ

/-- Embedding of Exponential::predict; growth.powf(x) is modelled by real
rpow. -/
def Exponential.predict (m : Exponential) (nudge : Option (ℕ × ℝ)) (x : ℝ) :
    Option ℝ :=
  match nudge with
  | none => some (m.base * m.growth ^ x)
  | some (0, epsilon) => some ((m.base + epsilon) * m.growth ^ x)
  | some (1, epsilon) => some (m.base * (m.growth + epsilon) ^ x)
  | some (_ + 2, _) => none

/-- Embedding of Exponential::descend. -/
def Exponential.descend (m : Exponential) (adjustments : Fin 2 → ℝ) : Exponential :=
  { base := m.base + adjustments 0, growth := m.growth + adjustments 1 }

/-- The fixed-degree Polynomial model of src/regressors.rs, with TERMS
coefficients. -/
structure Polynomial (TERMS : ℕ) where
  terms : Fin TERMS → ℝ

/-- Embedding of Polynomial::predict: an enumerate-map-sum over the
coefficients; the nudged arm adds epsilon to the coefficient whose index
equals the nudge index.  Note the match has no wildcard arm: any nudge index
is accepted, and an out-of-range one leaves every coefficient unchanged. -/
def Polynomial.predict {T : ℕ} (m : Polynomial T) (nudge : Option (ℕ × ℝ))
    (x : ℝ) : Option ℝ :=
  match nudge with
  | none => some (∑ i, m.terms i * x ^ (i : ℕ))
  | some (n, epsilon) =>
      some (∑ i : Fin T,
        (if (i : ℕ) = n then m.terms i + epsilon else m.terms i) * x ^ (i : ℕ))

/-- Embedding of Polynomial::descend. -/
def Polynomial.descend {T : ℕ} (m : Polynomial T) (adjustments : Fin T → ℝ) :
    Polynomial T :=
  ⟨fun i => m.terms i + adjustments i⟩

/-- The ScaledTranslatedEquation model of src/regressors.rs: parameters
x_0, y_0, width, height around a wrapped unary function. -/
structure ScaledTranslatedEquation where
  x_0 : ℝ
  y_0 : ℝ
  width : ℝ
  height : ℝ
  function : ℝ → ℝ

/-- Embedding of ScaledTranslatedEquation::predict.  Note the index 0 arm of
the source computes (x - x_0 + epsilon) / width, and the wildcard arm is
unreachable, modelled by none. -/
def ScaledTranslatedEquation.predict (m : ScaledTranslatedEquation)
    (nudge : Option (ℕ × ℝ)) (x : ℝ) : Option ℝ :=
  match nudge with
  | none => some (m.function ((x - m.x_0) / m.width) * m.height + m.y_0)
  | some (0, epsilon) =>
      some (m.function ((x - m.x_0 + epsilon) / m.width) * m.height + m.y_0)
  | some (1, epsilon) =>
      some (m.function ((x - m.x_0) / m.width) * m.height + (m.y_0 + epsilon))
  | some (2, epsilon) =>
      some (m.function ((x - m.x_0) / (m.width + epsilon)) * m.height + m.y_0)
  | some (3, epsilon) =>
      some (m.function ((x - m.x_0) / m.width) * (m.height + epsilon) + m.y_0)
  | some (_ + 4, _) => none

/-- Embedding of ScaledTranslatedEquation::descend. -/
def ScaledTranslatedEquation.descend (m : ScaledTranslatedEquation)
    (adjustments : Fin 4 → ℝ) : ScaledTranslatedEquation :=
  { m with
    x_0 := m.x_0 + adjustments 0
    y_0 := m.y_0 + adjustments 1
    width := m.width + adjustments 2
    height := m.height + adjustments 3 }

/-- The ParametricScaledTranslatedEquation model of src/regressors.rs:
the four scale-translate parameters plus P extra parameters fed to the
wrapped binary function.  PARAM_DIMENSION is 4 + P, written P + 4 here. -/
structure ParametricScaledTranslatedEquation (P : ℕ) where
  x_0 : ℝ
  y_0 : ℝ
  width : ℝ
  height : ℝ
  parameters : Fin P → ℝ
  function : ℝ → (Fin P → ℝ) → ℝ

/-- Embedding of ParametricScaledTranslatedEquation::predict.  The arm for a
nudge index n + 4 copies the parameter array, adds epsilon at position n, and
multiplies the function value by (height + epsilon), exactly as the source
does; an out-of-bounds position (n not below P) panics in Rust and is
modelled by none. -/
def ParametricScaledTranslatedEquation.predict {P : ℕ}
    (m : ParametricScaledTranslatedEquation P) (nudge : Option (ℕ × ℝ))
    (x : ℝ) : Option ℝ :=
  match nudge with
  | none => some (m.function ((x - m.x_0) / m.width) m.parameters * m.height + m.y_0)
  | some (0, epsilon) =>
      some (m.function ((x - m.x_0 + epsilon) / m.width) m.parameters * m.height + m.y_0)
  | some (1, epsilon) =>
      some (m.function ((x - m.x_0) / m.width) m.parameters * m.height + (m.y_0 + epsilon))
  | some (2, epsilon) =>
      some (m.function ((x - m.x_0) / (m.width + epsilon)) m.parameters * m.height + m.y_0)
  | some (3, epsilon) =>
      some (m.function ((x - m.x_0) / m.width) m.parameters * (m.height + epsilon) + m.y_0)
  | some (n + 4, epsilon) =>
      if h : n < P then
        some (m.function ((x - m.x_0) / m.width)
          (Function.update m.parameters ⟨n, h⟩ (m.parameters ⟨n, h⟩ + epsilon))
          * (m.height + epsilon) + m.y_0)
      else none

/-- Embedding of ParametricScaledTranslatedEquation::descend: the first four
adjustments go to the scale-translate parameters, the rest to the extra
parameter array. -/
def ParametricScaledTranslatedEquation.descend {P : ℕ}
    (m : ParametricScaledTranslatedEquation P) (adjustments : Fin (P + 4) → ℝ) :
    ParametricScaledTranslatedEquation P :=
  { m with
    x_0 := m.x_0 + adjustments 0
    y_0 := m.y_0 + adjustments 1
    width := m.width + adjustments 2
    height := m.height + adjustments 3
    parameters := fun i => m.parameters i + adjustments ⟨(i : ℕ) + 4, by omega⟩ }

/-- Embedding of the base_error computation of the descent loop in
src/main.rs lines 178 to 184: map each datum to its squared residual at the
unperturbed parameters and sum in dataset order. -/
def baseError (predict : Option (ℕ × ℝ) → ℝ → ℝ) (data : List (ℝ × ℝ)) : ℝ :=
  (data.map fun datum =>
    let delta := datum.2 - predict none datum.1
    delta * delta).sum

/-- Embedding of the gradient_error computation of src/main.rs lines 186 to
193: the squared-residual sum with the given parameter index nudged by
epsilon. -/
def gradientError (predict : Option (ℕ × ℝ) → ℝ → ℝ) (data : List (ℝ × ℝ))
    (nudge : ℕ) (epsilon : ℝ) : ℝ :=
  (data.map fun datum =>
    let delta := datum.2 - predict (some (nudge, epsilon)) datum.1
    delta * delta).sum

/-- Embedding of the gradients array of src/main.rs lines 185 to 195, built
by array::from_fn over the parameter indices. -/
def gradients (N : ℕ) (predict : Option (ℕ × ℝ) → ℝ → ℝ) (data : List (ℝ × ℝ))
    (epsilon : ℝ) : Fin N → ℝ :=
  fun nudge => (baseError predict data - gradientError predict data nudge epsilon) / epsilon

/-- The configuration of one descent run: the model capability (predict and
descend at the GradientDescent trait level), the dataset and the three
numeric settings of Args in src/main.rs. -/
structure LoopCfg (M : Type) (N : ℕ) where
  predict : M → Option (ℕ × ℝ) → ℝ → ℝ
  descend : M → (Fin N → ℝ) → M
  data : List (ℝ × ℝ)
  temperature : ℝ
  epsilon : ℝ
  finish_threshold : ℝ

/-- The gradient vector measured at model state m, as computed by one loop
iteration of src/main.rs. -/
def LoopCfg.gradientsOf {M : Type} {N : ℕ} (c : LoopCfg M N) (m : M) : Fin N → ℝ :=
  gradients N (c.predict m) c.data c.epsilon

/-- The gradient magnitude of one iteration, src/main.rs line 196. -/
def LoopCfg.magnitudeOf {M : Type} {N : ℕ} (c : LoopCfg M N) (m : M) : ℝ :=
  magnitude N (c.gradientsOf m)

/-- The convergence test of src/main.rs line 197: magnitude.abs() at most
finish_threshold. -/
def LoopCfg.shouldFinish {M : Type} {N : ℕ} (c : LoopCfg M N) (m : M) : Prop :=
  |c.magnitudeOf m| ≤ c.finish_threshold

/-- The model after the descend call of src/main.rs line 198: each gradient
entry scaled by the temperature and added to the parameters. -/
def LoopCfg.stepModel {M : Type} {N : ℕ} (c : LoopCfg M N) (m : M) : M :=
  c.descend m (fun i => c.gradientsOf m i * c.temperature)

/-- Control state of the descent loop: still iterating, or stopped by the
break of src/main.rs line 228. -/
inductive LoopState (M : Type) where
  | running (m : M)
  | finished (m : M)

/-- One iteration of the descent loop of src/main.rs lines 177 to 231: the
convergence flag is computed from the pre-step gradients (line 197), the
descend call is then made unconditionally (line 198), and the loop breaks
afterwards when the flag was set (lines 226 to 229). -/
def LoopCfg.step {M : Type} {N : ℕ} (c : LoopCfg M N) :
    LoopState M → LoopState M
  | .running m =>
      if c.shouldFinish m then .finished (c.stepModel m) else .running (c.stepModel m)
  | .finished m => .finished m

/-- A two-state model of an f64 value: an exact real, or NaN.  Infinities
are not needed by the claims treated here. -/
inductive F64 where
  | num : ℝ → F64
  | nan : F64

/-- f64 abs: NaN stays NaN. -/
def F64.abs : F64 → F64
  | num x => num |x|
  | nan => nan

/-- The IEEE comparison a at most b on f64: any comparison with NaN is
false. -/
def F64.le : F64 → F64 → Prop
  | num a, num b => a ≤ b
  | _, _ => False

/-- The convergence test of src/main.rs line 197 with the magnitude read as
an f64 that may be NaN. -/
def shouldFinishF (m : F64) (finish_threshold : ℝ) : Prop :=
  F64.le (F64.abs m) (F64.num finish_threshold)

/-- One loop iteration with the magnitude computation abstracted as an
F64-valued function of the model state, so that NaN pollution can be
expressed; the ordering of flag, descend and break is that of src/main.rs
lines 196 to 229. -/
def stepF {M : Type} (mag : M → F64) (desc : M → M) (finish_threshold : ℝ) :
    LoopState M → LoopState M
  | .running m =>
      if shouldFinishF (mag m) finish_threshold then .finished (desc m)
      else .running (desc m)
  | .finished m => .finished m

/-- Total view of Linear predict as used by the descent loop, whose nudge
indices always lie below PARAM_DIMENSION so that the default value of getD
is never taken there. -/
def linearPredictTotal (m : Linear) (nudge : Option (ℕ × ℝ)) (x : ℝ) : ℝ :=
  (m.predict nudge x).getD 0

/-- The descent loop of src/main.rs instantiated with the Linear model. -/
def linearLoopCfg (temperature epsilon finish_threshold : ℝ)
    (data : List (ℝ × ℝ)) : LoopCfg Linear 2 :=
  { predict := linearPredictTotal
    descend := Linear.descend
    data := data
    temperature := temperature
    epsilon := epsilon
    finish_threshold := finish_threshold }

/-- The perfectly fit dataset of the convergence property: y = 2 x + 1 on
x = 0, 1, 2, 3. -/
def perfectLinearData : List (ℝ × ℝ) := [(0, 1), (1, 3), (2, 5), (3, 7)]

/-- The Linear model that exactly fits perfectLinearData. -/
def fitModel : Linear := ⟨2, 1⟩

/-- C7: for every input x, predict with no nudge computes the closed form of
each variant: slope times x plus intercept for Linear, base times growth to
the power x for Exponential, the coefficient-weighted power sum for
Polynomial, and the scaled translated wrapped function value for the two
wrapper variants. -/
theorem C7_predict_closed_forms :
    (∀ (m : Linear) (x : ℝ), m.predict none x = some (m.slope * x + m.y_intercept)) ∧
    (∀ (m : Exponential) (x : ℝ), m.predict none x = some (m.base * m.growth ^ x)) ∧
    (∀ (T : ℕ) (m : Polynomial T) (x : ℝ),
      m.predict none x = some (∑ i, m.terms i * x ^ (i : ℕ))) ∧
    (∀ (m : ScaledTranslatedEquation) (x : ℝ),
      m.predict none x = some (m.function ((x - m.x_0) / m.width) * m.height + m.y_0)) ∧
    (∀ (P : ℕ) (m : ParametricScaledTranslatedEquation P) (x : ℝ),
      m.predict none x =
        some (m.function ((x - m.x_0) / m.width) m.parameters * m.height + m.y_0)) :=
  ⟨fun _ _ => rfl, fun _ _ => rfl, fun _ _ _ => rfl, fun _ _ => rfl, fun _ _ _ => rfl⟩

/-- C4: for every variant, descend adds the adjustment vector element-wise
to the parameters, and predict with no nudge afterwards computes the closed
form at the shifted parameters. -/
theorem C4_descend_shifts_parameters :
    (∀ (m : Linear) (adjustments : Fin 2 → ℝ) (x : ℝ),
      (m.descend adjustments).predict none x =
        some ((m.slope + adjustments 0) * x + (m.y_intercept + adjustments 1))) ∧
    (∀ (m : Exponential) (adjustments : Fin 2 → ℝ) (x : ℝ),
      (m.descend adjustments).predict none x =
        some ((m.base + adjustments 0) * (m.growth + adjustments 1) ^ x)) ∧
    (∀ (T : ℕ) (m : Polynomial T) (adjustments : Fin T → ℝ) (x : ℝ),
      (m.descend adjustments).predict none x =
        some (∑ i, (m.terms i + adjustments i) * x ^ (i : ℕ))) ∧
    (∀ (m : ScaledTranslatedEquation) (adjustments : Fin 4 → ℝ) (x : ℝ),
      (m.descend adjustments).predict none x =
        some (m.function ((x - (m.x_0 + adjustments 0)) / (m.width + adjustments 2)) *
          (m.height + adjustments 3) + (m.y_0 + adjustments 1))) ∧
    (∀ (P : ℕ) (m : ParametricScaledTranslatedEquation P)
        (adjustments : Fin (P + 4) → ℝ) (x : ℝ),
      (m.descend adjustments).predict none x =
        some (m.function ((x - (m.x_0 + adjustments 0)) / (m.width + adjustments 2))
          (fun i => m.parameters i + adjustments ⟨(i : ℕ) + 4, by omega⟩) *
          (m.height + adjustments 3) + (m.y_0 + adjustments 1))) :=
  ⟨fun _ _ _ => rfl, fun _ _ _ => rfl, fun _ _ _ _ => rfl, fun _ _ _ => rfl,
    fun _ _ _ _ => rfl⟩

/-- C3: the gradient estimator returns as base error the sum, in dataset
order, of the squared residuals at the unperturbed parameters, and for each
parameter index the gradient entry is the base error minus the nudged error,
divided by epsilon. -/
theorem C3_gradient_estimator (predict : Option (ℕ × ℝ) → ℝ → ℝ)
    (data : List (ℝ × ℝ)) (epsilon : ℝ) (N : ℕ) :
    baseError predict data = (data.map fun d => (d.2 - predict none d.1) ^ 2).sum ∧
    ∀ i : Fin N, gradients N predict data epsilon i =
      (baseError predict data -
        (data.map fun d => (d.2 - predict (some ((i : ℕ), epsilon)) d.1) ^ 2).sum) /
        epsilon := by
  constructor
  · simp [baseError, pow_two]
  · intro i
    simp [gradients, gradientError, pow_two]

/-- C5: the magnitude of a fixed-length real vector is 0 for length 0, the
single signed entry for length 1, the square root of the sum of the two
squares for length 2, and the square root of the sum of all squares for
length at least 3. -/
theorem C5_magnitude_cases :
    (∀ v : Fin 0 → ℝ, magnitude 0 v = 0) ∧
    (∀ v : Fin 1 → ℝ, magnitude 1 v = v 0) ∧
    (∀ v : Fin 2 → ℝ, magnitude 2 v = Real.sqrt (v 0 ^ 2 + v 1 ^ 2)) ∧
    (∀ (n : ℕ) (v : Fin n → ℝ), 3 ≤ n → magnitude n v = Real.sqrt (∑ i, v i ^ 2)) := by
  refine ⟨fun _ => rfl, fun _ => rfl, fun _ => rfl, ?_⟩
  intro n v h
  rcases n with _ | _ | _ | k
  · omega
  · omega
  · omega
  · show Real.sqrt (∑ i, v i * v i) = _
    congr 1
    exact Finset.sum_congr rfl fun i _ => (pow_two (v i)).symm

/-- Witness for C5 at the concrete length-3 vector with all entries 2. -/
theorem C5_magnitude_cases_witness :
    magnitude 3 (fun _ => (2 : ℝ)) = Real.sqrt 12 := by
  have h := C5_magnitude_cases.2.2.2 3 (fun _ => (2 : ℝ)) (by norm_num)
  rw [h]
  norm_num [Fin.sum_univ_three]

/-- C10: for every variant, predict with no nudge or an in-range nudge index
is total: it returns a value for all real parameters and inputs, including
degenerate ones such as width zero, and never fails. -/
theorem C10_predict_total :
    (∀ (m : Linear) (x : ℝ), (m.predict none x).isSome = true) ∧
    (∀ (m : Linear) (i : ℕ) (epsilon x : ℝ),
      i < 2 → (m.predict (some (i, epsilon)) x).isSome = true) ∧
    (∀ (m : Exponential) (x : ℝ), (m.predict none x).isSome = true) ∧
    (∀ (m : Exponential) (i : ℕ) (epsilon x : ℝ),
      i < 2 → (m.predict (some (i, epsilon)) x).isSome = true) ∧
    (∀ (T : ℕ) (m : Polynomial T) (x : ℝ), (m.predict none x).isSome = true) ∧
    (∀ (T : ℕ) (m : Polynomial T) (i : ℕ) (epsilon x : ℝ),
      i < T → (m.predict (some (i, epsilon)) x).isSome = true) ∧
    (∀ (m : ScaledTranslatedEquation) (x : ℝ), (m.predict none x).isSome = true) ∧
    (∀ (m : ScaledTranslatedEquation) (i : ℕ) (epsilon x : ℝ),
      i < 4 → (m.predict (some (i, epsilon)) x).isSome = true) ∧
    (∀ (P : ℕ) (m : ParametricScaledTranslatedEquation P) (x : ℝ),
      (m.predict none x).isSome = true) ∧
    (∀ (P : ℕ) (m : ParametricScaledTranslatedEquation P) (i : ℕ) (epsilon x : ℝ),
      i < 4 + P → (m.predict (some (i, epsilon)) x).isSome = true) := by
  refine ⟨fun _ _ => rfl, ?_, fun _ _ => rfl, ?_, fun _ _ _ => rfl, ?_,
    fun _ _ => rfl, ?_, fun _ _ _ => rfl, ?_⟩
  · intro m i epsilon x hi
    rcases i with _ | _ | i
    · rfl
    · rfl
    · omega
  · intro m i epsilon x hi
    rcases i with _ | _ | i
    · rfl
    · rfl
    · omega
  · intro T m i epsilon x hi
    rfl
  · intro m i epsilon x hi
    rcases i with _ | _ | _ | _ | i
    · rfl
    · rfl
    · rfl
    · rfl
    · omega
  · intro P m i epsilon x hi
    rcases i with _ | _ | _ | _ | n
    · rfl
    · rfl
    · rfl
    · rfl
    · have hn : n < P := by omega
      simp [ParametricScaledTranslatedEquation.predict, hn]

/-- Witness for C10 at a ScaledTranslatedEquation with width zero: the
unguarded division does not prevent predict from returning a value. -/
theorem C10_predict_total_witness :
    (((⟨0, 0, 0, 1, fun y => y⟩ : ScaledTranslatedEquation).predict none 5).isSome = true) ∧
    (((⟨0, 0, 0, 1, fun y => y⟩ : ScaledTranslatedEquation).predict (some (2, 1)) 5).isSome = true) :=
  ⟨C10_predict_total.2.2.2.2.2.2.1 ⟨0, 0, 0, 1, fun y => y⟩ 5,
    C10_predict_total.2.2.2.2.2.2.2.1 ⟨0, 0, 0, 1, fun y => y⟩ 2 1 5 (by norm_num)⟩

/-- Counterexample for C8: the Polynomial variant does not reject an
out-of-range nudge index; with one coefficient equal to 5, a nudge at index
1 returns the unperturbed value some 5 instead of failing. -/
theorem C8_counterexample :
    (⟨fun _ => 5⟩ : Polynomial 1).predict (some (1, 3)) 2 = some 5 := by
  simp [Polynomial.predict, Fin.sum_univ_one]

/-- C8 amended: Linear, Exponential and ScaledTranslatedEquation fail fast
on any out-of-range nudge index through their unreachable match arm, and
ParametricScaledTranslatedEquation fails fast through its out-of-bounds
array index, but Polynomial silently returns the unperturbed prediction. -/
theorem C8_out_of_range_amended :
    (∀ (m : Linear) (n : ℕ) (epsilon x : ℝ), m.predict (some (n + 2, epsilon)) x = none) ∧
    (∀ (m : Exponential) (n : ℕ) (epsilon x : ℝ), m.predict (some (n + 2, epsilon)) x = none) ∧
    (∀ (m : ScaledTranslatedEquation) (n : ℕ) (epsilon x : ℝ),
      m.predict (some (n + 4, epsilon)) x = none) ∧
    (∀ (P : ℕ) (m : ParametricScaledTranslatedEquation P) (n : ℕ) (epsilon x : ℝ),
      P ≤ n → m.predict (some (n + 4, epsilon)) x = none) ∧
    (∀ (T : ℕ) (m : Polynomial T) (n : ℕ) (epsilon x : ℝ),
      T ≤ n → m.predict (some (n, epsilon)) x = m.predict none x) := by
  refine ⟨fun _ _ _ _ => rfl, fun _ _ _ _ => rfl, fun _ _ _ _ => rfl, ?_, ?_⟩
  · intro P m n epsilon x h
    have hn : ¬ n < P := by omega
    simp [ParametricScaledTranslatedEquation.predict, hn]
  · intro T m n epsilon x h
    simp only [Polynomial.predict]
    congr 1
    refine Finset.sum_congr rfl fun i _ => ?_
    have : (i : ℕ) ≠ n := by omega
    simp [this]

/-- Witness for C8 amended at a one-coefficient Polynomial and a
one-parameter ParametricScaledTranslatedEquation. -/
theorem C8_out_of_range_amended_witness :
    ((⟨fun _ => 5⟩ : Polynomial 1).predict (some (2, 3)) 7 =
      (⟨fun _ => 5⟩ : Polynomial 1).predict none 7) ∧
    ((⟨0, 0, 1, 1, fun _ => 0, fun _ _ => 0⟩ :
      ParametricScaledTranslatedEquation 1).predict (some (5, 1)) 0 = none) :=
  ⟨C8_out_of_range_amended.2.2.2.2 1 ⟨fun _ => 5⟩ 2 3 7 (by norm_num),
    C8_out_of_range_amended.2.2.2.1 1 ⟨0, 0, 1, 1, fun _ => 0, fun _ _ => 0⟩ 1 1 0
      (by norm_num)⟩

/-- Counterexample for C1: nudging index 0 of a ScaledTranslatedEquation is
not the same as replacing x_0 by x_0 plus epsilon (the source adds epsilon to
x, which shifts x_0 the other way), and nudging index 4 of a
ParametricScaledTranslatedEquation does not only replace the extra parameter,
since the source also multiplies by height plus epsilon. -/
theorem C1_counterexample :
    ((⟨0, 0, 1, 1, fun y => y⟩ : ScaledTranslatedEquation).predict (some (0, 1)) 0 ≠
      (⟨0 + 1, 0, 1, 1, fun y => y⟩ : ScaledTranslatedEquation).predict none 0) ∧
    ((⟨0, 0, 1, 1, fun _ => 0, fun _ p => p 0⟩ :
        ParametricScaledTranslatedEquation 1).predict (some (4, 1)) 0 ≠
      (⟨0, 0, 1, 1, Function.update (fun _ => (0 : ℝ)) 0 (0 + 1), fun _ p => p 0⟩ :
        ParametricScaledTranslatedEquation 1).predict none 0) := by
  constructor
  · simp only [ScaledTranslatedEquation.predict]
    norm_num
  · simp only [ParametricScaledTranslatedEquation.predict]
    rw [dif_pos (by norm_num : (0 : ℕ) < 1)]
    simp [Function.update_apply]

/-- C1 amended: a nudge at a valid index equals prediction with that single
parameter replaced by its value plus epsilon, except that on the two wrapper
variants index 0 replaces x_0 by x_0 minus epsilon, and on
ParametricScaledTranslatedEquation an index n plus 4 additionally replaces
height by height plus epsilon. -/
theorem C1_nudge_amended :
    (∀ (m : Linear) (epsilon x : ℝ),
      m.predict (some (0, epsilon)) x =
        (Linear.mk (m.slope + epsilon) m.y_intercept).predict none x ∧
      m.predict (some (1, epsilon)) x =
        (Linear.mk m.slope (m.y_intercept + epsilon)).predict none x) ∧
    (∀ (m : Exponential) (epsilon x : ℝ),
      m.predict (some (0, epsilon)) x =
        (Exponential.mk (m.base + epsilon) m.growth).predict none x ∧
      m.predict (some (1, epsilon)) x =
        (Exponential.mk m.base (m.growth + epsilon)).predict none x) ∧
    (∀ (T : ℕ) (m : Polynomial T) (i : Fin T) (epsilon x : ℝ),
      m.predict (some ((i : ℕ), epsilon)) x =
        (Polynomial.mk (Function.update m.terms i (m.terms i + epsilon))).predict none x) ∧
    (∀ (m : ScaledTranslatedEquation) (epsilon x : ℝ),
      m.predict (some (0, epsilon)) x = ({ m with x_0 := m.x_0 - epsilon }).predict none x ∧
      m.predict (some (1, epsilon)) x = ({ m with y_0 := m.y_0 + epsilon }).predict none x ∧
      m.predict (some (2, epsilon)) x = ({ m with width := m.width + epsilon }).predict none x ∧
      m.predict (some (3, epsilon)) x = ({ m with height := m.height + epsilon }).predict none x) ∧
    (∀ (P : ℕ) (m : ParametricScaledTranslatedEquation P) (epsilon x : ℝ),
      (m.predict (some (0, epsilon)) x = ({ m with x_0 := m.x_0 - epsilon }).predict none x) ∧
      (m.predict (some (1, epsilon)) x = ({ m with y_0 := m.y_0 + epsilon }).predict none x) ∧
      (m.predict (some (2, epsilon)) x = ({ m with width := m.width + epsilon }).predict none x) ∧
      (m.predict (some (3, epsilon)) x = ({ m with height := m.height + epsilon }).predict none x) ∧
      ∀ (n : ℕ) (h : n < P),
        m.predict (some (n + 4, epsilon)) x =
          ({ m with
              parameters :=
                Function.update m.parameters ⟨n, h⟩ (m.parameters ⟨n, h⟩ + epsilon)
              height := m.height + epsilon }).predict none x) := by
  refine ⟨?_, ?_, ?_, ?_, ?_⟩
  · intro m epsilon x
    exact ⟨rfl, by simp only [Linear.predict]; rw [add_assoc]⟩
  · intro m epsilon x
    exact ⟨rfl, rfl⟩
  · intro T m i epsilon x
    simp only [Polynomial.predict, Option.some.injEq]
    refine Finset.sum_congr rfl fun j _ => ?_
    by_cases h : j = i
    · subst h
      simp [Function.update_apply]
    · have hj : (j : ℕ) ≠ (i : ℕ) := fun hc => h (Fin.ext hc)
      simp [Function.update_apply, h, hj]
  · intro m epsilon x
    refine ⟨?_, rfl, rfl, rfl⟩
    simp only [ScaledTranslatedEquation.predict, Option.some.injEq]
    rw [show x - m.x_0 + epsilon = x - (m.x_0 - epsilon) by ring]
  · intro P m epsilon x
    refine ⟨?_, rfl, rfl, rfl, ?_⟩
    · simp only [ParametricScaledTranslatedEquation.predict, Option.some.injEq]
      rw [show x - m.x_0 + epsilon = x - (m.x_0 - epsilon) by ring]
    · intro n h
      simp only [ParametricScaledTranslatedEquation.predict]
      rw [dif_pos h]

/-- Witness for C1 amended at a concrete one-parameter
ParametricScaledTranslatedEquation and nudge index 4. -/
theorem C1_nudge_amended_witness :
    (⟨0, 0, 1, 1, fun _ => 0, fun _ p => p 0⟩ :
        ParametricScaledTranslatedEquation 1).predict (some (0 + 4, 1)) 0 =
      ({ (⟨0, 0, 1, 1, fun _ => 0, fun _ p => p 0⟩ : ParametricScaledTranslatedEquation 1) with
          parameters := Function.update (fun _ => (0 : ℝ)) ⟨0, by norm_num⟩
            ((fun _ => (0 : ℝ)) (⟨0, by norm_num⟩ : Fin 1) + 1)
          height := 1 + 1 }).predict none 0 :=
  (C1_nudge_amended.2.2.2.2 1 ⟨0, 0, 1, 1, fun _ => 0, fun _ p => p 0⟩ 1 0).2.2.2.2 0
    (by norm_num)

/-- A small concrete run used to exercise the loop step: one observation
(0, 1), temperature 1, epsilon 1, finish_threshold 100, starting from the
zero Linear model. -/
def c2cfg : LoopCfg Linear 2 := linearLoopCfg 1 1 100 [(0, 1)]

lemma c2cfg_grad0 : c2cfg.gradientsOf ⟨0, 0⟩ 0 = 0 := by
  simp [c2cfg, LoopCfg.gradientsOf, gradients, baseError, gradientError, linearLoopCfg,
    linearPredictTotal, Linear.predict]

lemma c2cfg_grad1 : c2cfg.gradientsOf ⟨0, 0⟩ 1 = 1 := by
  simp [c2cfg, LoopCfg.gradientsOf, gradients, baseError, gradientError, linearLoopCfg,
    linearPredictTotal, Linear.predict]

lemma c2cfg_magnitude : c2cfg.magnitudeOf ⟨0, 0⟩ = 1 := by
  have h : c2cfg.magnitudeOf ⟨0, 0⟩ =
      hypot (c2cfg.gradientsOf ⟨0, 0⟩ 0) (c2cfg.gradientsOf ⟨0, 0⟩ 1) := rfl
  rw [h, c2cfg_grad0, c2cfg_grad1, hypot]
  norm_num

lemma c2cfg_shouldFinish : c2cfg.shouldFinish ⟨0, 0⟩ := by
  have h : c2cfg.shouldFinish ⟨0, 0⟩ = (|c2cfg.magnitudeOf ⟨0, 0⟩| ≤ 100) := rfl
  rw [h, c2cfg_magnitude]
  norm_num

lemma c2cfg_stepModel : c2cfg.stepModel ⟨0, 0⟩ = ⟨0, 1⟩ := by
  have h : c2cfg.stepModel ⟨0, 0⟩ =
      Linear.descend ⟨0, 0⟩ (fun i => c2cfg.gradientsOf ⟨0, 0⟩ i * 1) := rfl
  rw [h]
  simp only [Linear.descend]
  rw [c2cfg_grad0, c2cfg_grad1]
  norm_num

/-- Counterexample for C2: on the concrete run c2cfg the convergence test
holds at the start state, yet the iteration still applies the descend step,
so the loop stops with mutated parameters, not with the parameters at which
the gradient was measured. -/
theorem C2_counterexample :
    c2cfg.shouldFinish ⟨0, 0⟩ ∧
    c2cfg.step (LoopState.running ⟨0, 0⟩) = LoopState.finished ⟨0, 1⟩ ∧
    LoopState.finished (⟨0, 1⟩ : Linear) ≠ LoopState.finished (⟨0, 0⟩ : Linear) := by
  refine ⟨c2cfg_shouldFinish, ?_, ?_⟩
  · have h : c2cfg.step (LoopState.running ⟨0, 0⟩) =
        if c2cfg.shouldFinish ⟨0, 0⟩ then LoopState.finished (c2cfg.stepModel ⟨0, 0⟩)
        else LoopState.running (c2cfg.stepModel ⟨0, 0⟩) := rfl
    rw [h, if_pos c2cfg_shouldFinish, c2cfg_stepModel]
  · intro h
    have h2 : (⟨0, 1⟩ : Linear) = ⟨0, 0⟩ := by injection h
    have h3 : (1 : ℝ) = 0 := congrArg Linear.y_intercept h2
    norm_num at h3

/-- C2 amended: the convergence flag is computed before the step from the
pre-step gradients, but the step is applied unconditionally; when the flag
is set the loop stops with the stepped model, and otherwise it continues
with the stepped model. -/
theorem C2_step_ordering_amended {M : Type} {N : ℕ} (c : LoopCfg M N) (m : M) :
    (c.shouldFinish m →
      c.step (LoopState.running m) = LoopState.finished (c.stepModel m)) ∧
    (¬ c.shouldFinish m →
      c.step (LoopState.running m) = LoopState.running (c.stepModel m)) := by
  constructor
  · intro h
    simp [LoopCfg.step, h]
  · intro h
    simp [LoopCfg.step, h]

/-- Witness for C2 amended on the concrete run c2cfg. -/
theorem C2_step_ordering_amended_witness :
    c2cfg.step (LoopState.running ⟨0, 0⟩) =
      LoopState.finished (c2cfg.stepModel ⟨0, 0⟩) :=
  (C2_step_ordering_amended c2cfg ⟨0, 0⟩).1 c2cfg_shouldFinish

lemma fit_grad0 (temperature finish_threshold eps : ℝ) :
    (linearLoopCfg temperature eps finish_threshold perfectLinearData).gradientsOf
      fitModel 0 = -(14 * eps) := by
  rcases eq_or_ne eps 0 with h | h
  · subst h
    simp [LoopCfg.gradientsOf, gradients, baseError, gradientError, linearLoopCfg,
      linearPredictTotal, Linear.predict, perfectLinearData, fitModel]
  · simp only [LoopCfg.gradientsOf, gradients, baseError, gradientError, linearLoopCfg,
      linearPredictTotal, Linear.predict, perfectLinearData, fitModel, List.map_cons,
      List.map_nil, List.sum_cons, List.sum_nil, Option.getD_some, Fin.isValue,
      Fin.val_zero]
    field_simp
    ring

lemma fit_grad1 (temperature finish_threshold eps : ℝ) :
    (linearLoopCfg temperature eps finish_threshold perfectLinearData).gradientsOf
      fitModel 1 = -(4 * eps) := by
  rcases eq_or_ne eps 0 with h | h
  · subst h
    simp [LoopCfg.gradientsOf, gradients, baseError, gradientError, linearLoopCfg,
      linearPredictTotal, Linear.predict, perfectLinearData, fitModel]
  · simp only [LoopCfg.gradientsOf, gradients, baseError, gradientError, linearLoopCfg,
      linearPredictTotal, Linear.predict, perfectLinearData, fitModel, List.map_cons,
      List.map_nil, List.sum_cons, List.sum_nil, Option.getD_some, Fin.isValue,
      Fin.val_one]
    field_simp
    ring

lemma fit_magnitude (temperature finish_threshold eps : ℝ) :
    (linearLoopCfg temperature eps finish_threshold perfectLinearData).magnitudeOf
      fitModel = Real.sqrt 212 * |eps| := by
  have h : (linearLoopCfg temperature eps finish_threshold perfectLinearData).magnitudeOf
      fitModel =
      hypot ((linearLoopCfg temperature eps finish_threshold perfectLinearData).gradientsOf
          fitModel 0)
        ((linearLoopCfg temperature eps finish_threshold perfectLinearData).gradientsOf
          fitModel 1) := rfl
  rw [h, fit_grad0, fit_grad1, hypot]
  rw [show (-(14 * eps)) ^ 2 + (-(4 * eps)) ^ 2 = 212 * eps ^ 2 by ring]
  rw [Real.sqrt_mul (by norm_num : (0 : ℝ) ≤ 212), Real.sqrt_sq_eq_abs]

lemma fit_stepModel (temperature finish_threshold eps : ℝ) :
    (linearLoopCfg temperature eps finish_threshold perfectLinearData).stepModel
      fitModel = ⟨2 + -(14 * eps) * temperature, 1 + -(4 * eps) * temperature⟩ := by
  have h : (linearLoopCfg temperature eps finish_threshold perfectLinearData).stepModel
      fitModel =
      Linear.descend fitModel
        (fun i =>
          (linearLoopCfg temperature eps finish_threshold perfectLinearData).gradientsOf
            fitModel i * temperature) := rfl
  rw [h]
  simp only [Linear.descend]
  rw [fit_grad0 temperature finish_threshold eps, fit_grad1 temperature finish_threshold eps]
  rfl

/-- Counterexample for C6: on the perfectly fit Linear model with epsilon
one over one thousand, temperature 1 and finish_threshold 1, the loop does
detect convergence at iteration 0, but the gradient magnitude is not zero
and the parameters are mutated by the final descend call. -/
theorem C6_counterexample :
    (linearLoopCfg 1 (1 / 1000) 1 perfectLinearData).shouldFinish fitModel ∧
    (linearLoopCfg 1 (1 / 1000) 1 perfectLinearData).magnitudeOf fitModel ≠ 0 ∧
    (linearLoopCfg 1 (1 / 1000) 1 perfectLinearData).step (LoopState.running fitModel) =
      LoopState.finished ⟨2 + -(14 * (1 / 1000)) * 1, 1 + -(4 * (1 / 1000)) * 1⟩ ∧
    (⟨2 + -(14 * (1 / 1000)) * 1, 1 + -(4 * (1 / 1000)) * 1⟩ : Linear) ≠ fitModel := by
  have hsqrt : Real.sqrt 212 ≤ 15 := by
    rw [show (15 : ℝ) = Real.sqrt 225 by
      rw [show (225 : ℝ) = 15 ^ 2 by norm_num, Real.sqrt_sq (by norm_num : (0 : ℝ) ≤ 15)]]
    exact Real.sqrt_le_sqrt (by norm_num)
  have hfin : (linearLoopCfg 1 (1 / 1000) 1 perfectLinearData).shouldFinish fitModel := by
    have h : (linearLoopCfg 1 (1 / 1000) 1 perfectLinearData).shouldFinish fitModel =
        (|(linearLoopCfg 1 (1 / 1000) 1 perfectLinearData).magnitudeOf fitModel| ≤ 1) := rfl
    rw [h, fit_magnitude]
    rw [abs_of_nonneg (mul_nonneg (Real.sqrt_nonneg _) (abs_nonneg _))]
    have : Real.sqrt 212 * |(1 : ℝ) / 1000| ≤ 15 * (1 / 1000) := by
      rw [show |(1 : ℝ) / 1000| = 1 / 1000 by norm_num]
      exact mul_le_mul_of_nonneg_right hsqrt (by norm_num)
    linarith
  refine ⟨hfin, ?_, ?_, ?_⟩
  · rw [fit_magnitude]
    have h212 : (0 : ℝ) < Real.sqrt 212 := Real.sqrt_pos.mpr (by norm_num)
    have habs : |(1 : ℝ) / 1000| = 1 / 1000 := by norm_num
    rw [habs]
    positivity
  · have h : (linearLoopCfg 1 (1 / 1000) 1 perfectLinearData).step
        (LoopState.running fitModel) =
        if (linearLoopCfg 1 (1 / 1000) 1 perfectLinearData).shouldFinish fitModel then
          LoopState.finished
            ((linearLoopCfg 1 (1 / 1000) 1 perfectLinearData).stepModel fitModel)
        else
          LoopState.running
            ((linearLoopCfg 1 (1 / 1000) 1 perfectLinearData).stepModel fitModel) := rfl
    rw [h, if_pos hfin, fit_stepModel]
  · intro h
    have h2 : (2 : ℝ) + -(14 * (1 / 1000)) * 1 = 2 := congrArg Linear.slope h
    norm_num at h2

/-- C6 amended: one gradient-estimation pass on the perfectly fit Linear
model yields the gradient vector with entries minus 14 epsilon and minus 4
epsilon, of magnitude the square root of 212 times the absolute value of
epsilon, which is nonzero for nonzero epsilon; whenever that magnitude is at
most the finish threshold the loop stops at iteration 0, but only after
applying the descend step, which shifts the parameters by the gradient
scaled by the temperature. -/
theorem C6_perfect_fit_amended (temperature finish_threshold eps : ℝ)
    (h : Real.sqrt 212 * |eps| ≤ finish_threshold) :
    (linearLoopCfg temperature eps finish_threshold perfectLinearData).gradientsOf
        fitModel 0 = -(14 * eps) ∧
    (linearLoopCfg temperature eps finish_threshold perfectLinearData).gradientsOf
        fitModel 1 = -(4 * eps) ∧
    (linearLoopCfg temperature eps finish_threshold perfectLinearData).magnitudeOf
        fitModel = Real.sqrt 212 * |eps| ∧
    (linearLoopCfg temperature eps finish_threshold perfectLinearData).shouldFinish
        fitModel ∧
    (linearLoopCfg temperature eps finish_threshold perfectLinearData).step
        (LoopState.running fitModel) =
      LoopState.finished ⟨2 + -(14 * eps) * temperature, 1 + -(4 * eps) * temperature⟩ := by
  have hfin : (linearLoopCfg temperature eps finish_threshold perfectLinearData).shouldFinish
      fitModel := by
    have heq : (linearLoopCfg temperature eps finish_threshold perfectLinearData).shouldFinish
        fitModel =
        (|(linearLoopCfg temperature eps finish_threshold perfectLinearData).magnitudeOf
          fitModel| ≤ finish_threshold) := rfl
    rw [heq, fit_magnitude,
      abs_of_nonneg (mul_nonneg (Real.sqrt_nonneg _) (abs_nonneg _))]
    exact h
  refine ⟨fit_grad0 _ _ _, fit_grad1 _ _ _, fit_magnitude _ _ _, hfin, ?_⟩
  have hstep : (linearLoopCfg temperature eps finish_threshold perfectLinearData).step
      (LoopState.running fitModel) =
      if (linearLoopCfg temperature eps finish_threshold perfectLinearData).shouldFinish
          fitModel then
        LoopState.finished
          ((linearLoopCfg temperature eps finish_threshold perfectLinearData).stepModel
            fitModel)
      else
        LoopState.running
          ((linearLoopCfg temperature eps finish_threshold perfectLinearData).stepModel
            fitModel) := rfl
  rw [hstep, if_pos hfin, fit_stepModel]

/-- Witness for C6 amended with epsilon 1, temperature 1 and threshold 15. -/
theorem C6_perfect_fit_amended_witness :
    (linearLoopCfg 1 1 15 perfectLinearData).step (LoopState.running fitModel) =
      LoopState.finished ⟨2 + -(14 * 1) * 1, 1 + -(4 * 1) * 1⟩ :=
  (C6_perfect_fit_amended 1 15 1 (by
    rw [show |(1 : ℝ)| = 1 by norm_num, mul_one]
    rw [show (15 : ℝ) = Real.sqrt 225 by
      rw [show (225 : ℝ) = 15 ^ 2 by norm_num, Real.sqrt_sq (by norm_num : (0 : ℝ) ≤ 15)]]
    exact Real.sqrt_le_sqrt (by norm_num))).2.2.2.2

/-- C9: the IEEE comparison of a NaN magnitude against the finish threshold
is false, so an iteration whose magnitude is NaN never sets the convergence
flag, and a run whose magnitude is NaN at every state stays in the running
state after any number of iterations. -/
theorem C9_nan_never_converges :
    (∀ finish_threshold : ℝ, ¬ shouldFinishF F64.nan finish_threshold) ∧
    (∀ (M : Type) (mag : M → F64) (desc : M → M) (finish_threshold : ℝ),
      (∀ m, mag m = F64.nan) → ∀ (n : ℕ) (m : M),
        ∃ m2, (stepF mag desc finish_threshold)^[n] (LoopState.running m) =
          LoopState.running m2) := by
  constructor
  · intro t h
    exact h
  · intro M mag desc t hmag n
    induction n with
    | zero => exact fun m => ⟨m, rfl⟩
    | succ k ih =>
      intro m
      rw [Function.iterate_succ_apply]
      have hstep : stepF mag desc t (LoopState.running m) = LoopState.running (desc m) := by
        simp [stepF, hmag m, shouldFinishF, F64.abs, F64.le]
      rw [hstep]
      exact ih (desc m)

/-- Witness for C9: with the magnitude constantly NaN on the Linear model
and an identity descend, three iterations from a concrete start state leave
the loop running. -/
theorem C9_nan_never_converges_witness :
    ∃ m2, (stepF (fun _ : Linear => F64.nan) id 0)^[3] (LoopState.running ⟨1, 2⟩) =
      LoopState.running m2 :=
  C9_nan_never_converges.2 Linear (fun _ => F64.nan) id 0 (fun _ => rfl) 3 ⟨1, 2⟩

end

end Regression
